import Mathlib

/-!
# Wallet initialisation (`core/src/ncipher/init_wallet.c`)

Shallow embedding of `gen_random` and `handle_init_wallet`.

The two functions talk to collaborators whose code is not part of the file:
the nCipher SDK (`NFastApp_Transact`, `NFast_StrError`, `NFastApp_Free_Reply`),
`mix_entropy`, the HD-node library (`hdnode_*`) and the sealing calls
(`protect_wallet`, `protect_pubkey`).  They are taken as parameters, gathered
in `Env`.  Every collaborator may answer differently depending on the calls
made so far, so each one receives the history of calls (`List Call`) next to
its arguments.  The embedded functions return, besides their C result, the
list of collaborator calls they made, in order.

`ERROR` and `DEBUG` log lines are not modelled.
-/

namespace Subzero

/-- Byte of memory (`uint8_t`, `char`).  No arithmetic is done on bytes here. -/
abbrev Byte := Nat

/-- Values of the `Result` enumeration.  The six values named in
`init_wallet.c` are constructors; every other value of the enumeration
(returned by `mix_entropy`, `protect_wallet`, `protect_pubkey`) is `Result_OTHER`. -/
inductive Result where
  | Result_SUCCESS
  | Result_UNKNOWN_INTERNAL_FAILURE
  | Result_GEN_RANDOM_BUFFER_TOO_LARGE_FAILURE
  | Result_NFAST_APP_TRANSACT_FAILURE
  | Result_NFAST_APP_TRANSACT_STATUS_FAILURE
  | Result_GEN_RANDOM_UNEXPECTED_LEN_FAILURE
  | Result_OTHER (code : Nat)
  deriving DecidableEq

/-- Status word of the nCipher SDK: `Status_OK` or any other status. -/
inductive M_Status where
  | Status_OK
  | Status_OTHER (code : Nat)
  deriving DecidableEq

/-- Command selector: the zero of `M_Command command = {0}` or `Cmd_GenerateRandom`. -/
inductive M_Cmd where
  | Cmd_ZERO
  | Cmd_GenerateRandom
  deriving DecidableEq

/-- The fields of `M_Command` that `gen_random` sets.  `certs` is true when the
pointer is `&cert_list`; `flags_certs_present` is true when
`Command_flags_certs_present` is set in `flags`. -/
structure M_Command where
  cmd : M_Cmd
  lenbytes : Nat
  certs : Bool
  flags_certs_present : Bool
  deriving DecidableEq

/-- The fields of `M_Reply` that `gen_random` reads: `status` and the byte block
`reply.generaterandom.data`, whose `len` is the length of the list and whose
`ptr` points to its bytes. -/
structure M_Reply where
  status : M_Status
  data : List Byte
  deriving DecidableEq

/-- Calls to collaborators, with the arguments passed. -/
inductive Call (HDNode InternalCommandRequest EncryptedMasterSeed EncryptedPubKey : Type) where
  | NFastApp_Transact (command : M_Command)
  | NFast_StrError (status : M_Status)
  | NFastApp_Free_Reply (reply : M_Reply)
  | mix_entropy (master_seed : List Byte) (inp : InternalCommandRequest)
  | hdnode_from_seed (seed : List Byte) (seed_len : Nat) (curve : String)
  | hdnode_fingerprint (node : HDNode)
  | hdnode_private_ckd_prime (node : HDNode) (i : Nat)
  | hdnode_fill_public_key (node : HDNode)
  | hdnode_serialize_public (node : HDNode) (fingerprint : Nat) (version : Nat) (strsize : Nat)
  | protect_wallet (master_seed : List Byte) (dst : EncryptedMasterSeed)
  | protect_pubkey (pub_key : List Byte) (dst : EncryptedPubKey)
  deriving DecidableEq

/-- Compile-time constants of `config.h`, `curves.h` and `bip32.h` used by
`handle_init_wallet`. -/
structure Config where
  MASTER_SEED_SIZE : Nat
  SECP256K1_NAME : String
  COIN_TYPE : Nat
  XPUB_SIZE : Nat
  PUBKEY_PREFIX : Nat

/-- The collaborators of `init_wallet.c`.  Every function receives the history of
calls made so far and its arguments, and returns its C return value together
with the new contents of the memory it writes through its pointer arguments.

* `NFastApp_Transact hist command` returns the status and the reply filled in.
* `mix_entropy hist master_seed inp` returns the result and the buffer after mixing.
* `hdnode_from_seed hist node seed seed_len curve` returns the `int` result and the node written.
* `hdnode_fingerprint hist node` returns the fingerprint.
* `hdnode_private_ckd_prime hist node i` returns the `int` result and the node after derivation.
* `hdnode_fill_public_key hist node` returns the node with its public key filled.
* `hdnode_serialize_public hist node fingerprint version str strsize` returns the
  `int` result and the contents of `str` afterwards.
* `protect_wallet hist master_seed dst` and `protect_pubkey hist pub_key dst`
  return the result and the contents of `dst` afterwards.
* `uninit_node` and `uninit_pub_key` are the contents of the locals `node` and
  `pub_key` before anything is written to them.

The headers that declare these functions are not among the sources; the
signatures follow the call sites and the interfaces `from_seed(seed, curve)`,
`fingerprint(node)`, `serialize_public(node, fingerprint, version)` and
`seal(plaintext)`: `hdnode_from_seed`, `protect_wallet` and `protect_pubkey` only
read the bytes they are given, and `hdnode_fingerprint` and
`hdnode_serialize_public` only read the node. -/
structure Env (HDNode InternalCommandRequest EncryptedMasterSeed EncryptedPubKey : Type) where
  NFastApp_Transact :
    List (Call HDNode InternalCommandRequest EncryptedMasterSeed EncryptedPubKey) →
      M_Command → M_Status × M_Reply
  mix_entropy :
    List (Call HDNode InternalCommandRequest EncryptedMasterSeed EncryptedPubKey) →
      List Byte → InternalCommandRequest → Result × List Byte
  hdnode_from_seed :
    List (Call HDNode InternalCommandRequest EncryptedMasterSeed EncryptedPubKey) →
      HDNode → List Byte → Nat → String → Int × HDNode
  hdnode_fingerprint :
    List (Call HDNode InternalCommandRequest EncryptedMasterSeed EncryptedPubKey) →
      HDNode → Nat
  hdnode_private_ckd_prime :
    List (Call HDNode InternalCommandRequest EncryptedMasterSeed EncryptedPubKey) →
      HDNode → Nat → Int × HDNode
  hdnode_fill_public_key :
    List (Call HDNode InternalCommandRequest EncryptedMasterSeed EncryptedPubKey) →
      HDNode → HDNode
  hdnode_serialize_public :
    List (Call HDNode InternalCommandRequest EncryptedMasterSeed EncryptedPubKey) →
      HDNode → Nat → Nat → List Byte → Nat → Int × List Byte
  protect_wallet :
    List (Call HDNode InternalCommandRequest EncryptedMasterSeed EncryptedPubKey) →
      List Byte → EncryptedMasterSeed → Result × EncryptedMasterSeed
  protect_pubkey :
    List (Call HDNode InternalCommandRequest EncryptedMasterSeed EncryptedPubKey) →
      List Byte → EncryptedPubKey → Result × EncryptedPubKey
  uninit_node : HDNode
  uninit_pub_key : List Byte

/-- The response structure `InternalCommandResponse_InitWalletResponse`. -/
structure InternalCommandResponse_InitWalletResponse (EncryptedMasterSeed EncryptedPubKey : Type) where
  encrypted_master_seed : EncryptedMasterSeed
  encrypted_pub_key : EncryptedPubKey
  deriving DecidableEq

/-- What `gen_random` leaves behind: its return value, the contents of the
caller's buffer, and the collaborator calls it made. -/
structure GenRandomExit (C : Type) where
  r : Result
  buffer : List Byte
  calls : List C

/-- What `handle_init_wallet` leaves behind: its return value, the contents of
`*out`, the contents of the local `master_seed` at the `return`, and the
collaborator calls it made. -/
structure InitWalletExit (HDNode InternalCommandRequest EncryptedMasterSeed EncryptedPubKey : Type) where
  r : Result
  out : InternalCommandResponse_InitWalletResponse EncryptedMasterSeed EncryptedPubKey
  master_seed : List Byte
  calls : List (Call HDNode InternalCommandRequest EncryptedMasterSeed EncryptedPubKey)

open Result M_Status M_Cmd

variable {HDNode InternalCommandRequest EncryptedMasterSeed EncryptedPubKey : Type}

/-- The size of the global `uint8_t gen_random_buffer[256]`. -/
def sizeof_gen_random_buffer : Nat := 256

/-- Copy of `n` bytes: `memcpy(dst, src, n)` on the contents of `dst`. -/
def memcpy (dst src : List Byte) (n : Nat) : List Byte :=
  src.take n ++ dst.drop n

/-- The command that `gen_random` builds: `Cmd_GenerateRandom` for `buffer_len`
bytes, with `certs = &cert_list` and `Command_flags_certs_present` set. -/
def gen_random_command (buffer_len : Nat) : M_Command :=
  { cmd := Cmd_GenerateRandom, lenbytes := buffer_len, certs := true,
    flags_certs_present := true }

/-- The function `gen_random(buffer, buffer_len)`, run after the calls `hist`. -/
def gen_random (env : Env HDNode InternalCommandRequest EncryptedMasterSeed EncryptedPubKey)
    (hist : List (Call HDNode InternalCommandRequest EncryptedMasterSeed EncryptedPubKey))
    (buffer : List Byte) (buffer_len : Nat) :
    GenRandomExit (Call HDNode InternalCommandRequest EncryptedMasterSeed EncryptedPubKey) :=
  if buffer_len > sizeof_gen_random_buffer then
    { r := Result_GEN_RANDOM_BUFFER_TOO_LARGE_FAILURE, buffer := buffer, calls := [] }
  else
    let command : M_Command := gen_random_command buffer_len
    let t := env.NFastApp_Transact hist command
    let retcode := t.1
    let reply := t.2
    if retcode ≠ Status_OK then
      { r := Result_NFAST_APP_TRANSACT_FAILURE, buffer := buffer,
        calls := [Call.NFastApp_Transact command] }
    else if reply.status ≠ Status_OK then
      { r := Result_NFAST_APP_TRANSACT_STATUS_FAILURE, buffer := buffer,
        calls := [Call.NFastApp_Transact command, Call.NFast_StrError reply.status,
                  Call.NFastApp_Free_Reply reply] }
    else if reply.data.length ≠ buffer_len then
      { r := Result_GEN_RANDOM_UNEXPECTED_LEN_FAILURE, buffer := buffer,
        calls := [Call.NFastApp_Transact command, Call.NFastApp_Free_Reply reply] }
    else
      { r := Result_SUCCESS, buffer := memcpy buffer reply.data buffer_len,
        calls := [Call.NFastApp_Transact command, Call.NFastApp_Free_Reply reply] }

/-- The function `handle_init_wallet(in, out)`, run after the calls `hist`;
`out` is the contents of `*out` at entry. -/
def handle_init_wallet (env : Env HDNode InternalCommandRequest EncryptedMasterSeed EncryptedPubKey)
    (cfg : Config)
    (hist : List (Call HDNode InternalCommandRequest EncryptedMasterSeed EncryptedPubKey))
    (inp : InternalCommandRequest)
    (out : InternalCommandResponse_InitWalletResponse EncryptedMasterSeed EncryptedPubKey) :
    InitWalletExit HDNode InternalCommandRequest EncryptedMasterSeed EncryptedPubKey :=
  -- 1. Read random bytes from nCipher
  let master_seed : List Byte := List.replicate cfg.MASTER_SEED_SIZE 0
  let g := gen_random env hist master_seed (cfg.MASTER_SEED_SIZE % 4294967296)
  if g.r ≠ Result_SUCCESS then
    { r := g.r, out := out, master_seed := g.buffer, calls := g.calls }
  else
    -- 2. Mix random bytes from the host machine
    let m := env.mix_entropy (hist ++ g.calls) g.buffer inp
    let c2 := g.calls ++ [Call.mix_entropy g.buffer inp]
    if m.1 ≠ Result_SUCCESS then
      { r := m.1, out := out, master_seed := m.2, calls := c2 }
    else
      let master_seed := m.2
      -- 3. Compute pubkey
      let n0 := env.hdnode_from_seed (hist ++ c2) env.uninit_node master_seed
        cfg.MASTER_SEED_SIZE cfg.SECP256K1_NAME
      let c3 := c2 ++ [Call.hdnode_from_seed master_seed cfg.MASTER_SEED_SIZE cfg.SECP256K1_NAME]
      let node := n0.2
      let fingerprint := env.hdnode_fingerprint (hist ++ c3) node
      let c4 := c3 ++ [Call.hdnode_fingerprint node]
      let n1 := env.hdnode_private_ckd_prime (hist ++ c4) node cfg.COIN_TYPE
      let c5 := c4 ++ [Call.hdnode_private_ckd_prime node cfg.COIN_TYPE]
      let child := n1.2
      let node := env.hdnode_fill_public_key (hist ++ c5) child
      let c6 := c5 ++ [Call.hdnode_fill_public_key child]
      let s := env.hdnode_serialize_public (hist ++ c6) node fingerprint cfg.PUBKEY_PREFIX
        env.uninit_pub_key cfg.XPUB_SIZE
      let c7 := c6 ++ [Call.hdnode_serialize_public node fingerprint cfg.PUBKEY_PREFIX
        cfg.XPUB_SIZE]
      let ret := s.1
      let pub_key := s.2
      if ret ≤ 0 then
        { r := Result_UNKNOWN_INTERNAL_FAILURE, out := out, master_seed := master_seed,
          calls := c7 }
      else
        -- 4. encrypt master_seed
        let w := env.protect_wallet (hist ++ c7) master_seed out.encrypted_master_seed
        let c8 := c7 ++ [Call.protect_wallet master_seed out.encrypted_master_seed]
        let out := { out with encrypted_master_seed := w.2 }
        if w.1 ≠ Result_SUCCESS then
          { r := w.1, out := out, master_seed := master_seed, calls := c8 }
        else
          -- 5. encrypt pubkey
          let p := env.protect_pubkey (hist ++ c8) pub_key out.encrypted_pub_key
          let c9 := c8 ++ [Call.protect_pubkey pub_key out.encrypted_pub_key]
          let out := { out with encrypted_pub_key := p.2 }
          if p.1 ≠ Result_SUCCESS then
            { r := p.1, out := out, master_seed := master_seed, calls := c9 }
          else
            { r := Result_SUCCESS, out := out, master_seed := master_seed, calls := c9 }

/-! ## The stages of `handle_init_wallet`, for stating its properties -/

/-- What every collaborator of `handle_init_wallet` answers when the stages are
run one after the other with the arguments of the code, none skipped. -/
structure Pipeline (HDNode InternalCommandRequest EncryptedMasterSeed EncryptedPubKey : Type) where
  fetch : GenRandomExit (Call HDNode InternalCommandRequest EncryptedMasterSeed EncryptedPubKey)
  mix : Result × List Byte
  from_seed : Int × HDNode
  fingerprint : Nat
  ckd : Int × HDNode
  fill : HDNode
  serialize : Int × List Byte
  wallet : Result × EncryptedMasterSeed
  pubkey : Result × EncryptedPubKey

/-- The answers of the stages of `handle_init_wallet env cfg hist inp out`:
`fetch` is the call of `gen_random` on the zeroed `master_seed`; `mix` is
`mix_entropy` on the fetched buffer; `from_seed` is `hdnode_from_seed` on the
mixed buffer `mix.2`; `fingerprint` is `hdnode_fingerprint` of the node
`from_seed.2`; `ckd` is `hdnode_private_ckd_prime` on `from_seed.2` at
`COIN_TYPE`; `fill` is `hdnode_fill_public_key` on `ckd.2`; `serialize` is
`hdnode_serialize_public` of `fill` with `fingerprint`; `wallet` is
`protect_wallet` on `mix.2`; `pubkey` is `protect_pubkey` on `serialize.2`. -/
def pipeline (env : Env HDNode InternalCommandRequest EncryptedMasterSeed EncryptedPubKey)
    (cfg : Config)
    (hist : List (Call HDNode InternalCommandRequest EncryptedMasterSeed EncryptedPubKey))
    (inp : InternalCommandRequest)
    (out : InternalCommandResponse_InitWalletResponse EncryptedMasterSeed EncryptedPubKey) :
    Pipeline HDNode InternalCommandRequest EncryptedMasterSeed EncryptedPubKey :=
  let fetch := gen_random env hist (List.replicate cfg.MASTER_SEED_SIZE 0)
    (cfg.MASTER_SEED_SIZE % 4294967296)
  let mix := env.mix_entropy (hist ++ fetch.calls) fetch.buffer inp
  let c2 := fetch.calls ++ [Call.mix_entropy fetch.buffer inp]
  let from_seed := env.hdnode_from_seed (hist ++ c2) env.uninit_node mix.2
    cfg.MASTER_SEED_SIZE cfg.SECP256K1_NAME
  let c3 := c2 ++ [Call.hdnode_from_seed mix.2 cfg.MASTER_SEED_SIZE cfg.SECP256K1_NAME]
  let fingerprint := env.hdnode_fingerprint (hist ++ c3) from_seed.2
  let c4 := c3 ++ [Call.hdnode_fingerprint from_seed.2]
  let ckd := env.hdnode_private_ckd_prime (hist ++ c4) from_seed.2 cfg.COIN_TYPE
  let c5 := c4 ++ [Call.hdnode_private_ckd_prime from_seed.2 cfg.COIN_TYPE]
  let fill := env.hdnode_fill_public_key (hist ++ c5) ckd.2
  let c6 := c5 ++ [Call.hdnode_fill_public_key ckd.2]
  let serialize := env.hdnode_serialize_public (hist ++ c6) fill fingerprint cfg.PUBKEY_PREFIX
    env.uninit_pub_key cfg.XPUB_SIZE
  let c7 := c6 ++ [Call.hdnode_serialize_public fill fingerprint cfg.PUBKEY_PREFIX cfg.XPUB_SIZE]
  let wallet := env.protect_wallet (hist ++ c7) mix.2 out.encrypted_master_seed
  let c8 := c7 ++ [Call.protect_wallet mix.2 out.encrypted_master_seed]
  let pubkey := env.protect_pubkey (hist ++ c8) serialize.2 out.encrypted_pub_key
  { fetch := fetch, mix := mix, from_seed := from_seed, fingerprint := fingerprint, ckd := ckd,
    fill := fill, serialize := serialize, wallet := wallet, pubkey := pubkey }

/-- The exit of `handle_init_wallet` read off the answers of its stages: the
first stage that fails decides the return value, the response, and the calls
made.  It is shown equal to `handle_init_wallet` in `handle_init_wallet_eq_exit`. -/
def Pipeline.exit (p : Pipeline HDNode InternalCommandRequest EncryptedMasterSeed EncryptedPubKey)
    (cfg : Config) (inp : InternalCommandRequest)
    (out : InternalCommandResponse_InitWalletResponse EncryptedMasterSeed EncryptedPubKey) :
    InitWalletExit HDNode InternalCommandRequest EncryptedMasterSeed EncryptedPubKey :=
  if p.fetch.r ≠ Result_SUCCESS then
    { r := p.fetch.r, out := out, master_seed := p.fetch.buffer, calls := p.fetch.calls }
  else if p.mix.1 ≠ Result_SUCCESS then
    { r := p.mix.1, out := out, master_seed := p.mix.2,
      calls := p.fetch.calls ++ [Call.mix_entropy p.fetch.buffer inp] }
  else if p.serialize.1 ≤ 0 then
    { r := Result_UNKNOWN_INTERNAL_FAILURE, out := out, master_seed := p.mix.2,
      calls := p.fetch.calls ++
        [Call.mix_entropy p.fetch.buffer inp,
         Call.hdnode_from_seed p.mix.2 cfg.MASTER_SEED_SIZE cfg.SECP256K1_NAME,
         Call.hdnode_fingerprint p.from_seed.2,
         Call.hdnode_private_ckd_prime p.from_seed.2 cfg.COIN_TYPE,
         Call.hdnode_fill_public_key p.ckd.2,
         Call.hdnode_serialize_public p.fill p.fingerprint cfg.PUBKEY_PREFIX cfg.XPUB_SIZE] }
  else if p.wallet.1 ≠ Result_SUCCESS then
    { r := p.wallet.1,
      out := { encrypted_master_seed := p.wallet.2, encrypted_pub_key := out.encrypted_pub_key },
      master_seed := p.mix.2,
      calls := p.fetch.calls ++
        [Call.mix_entropy p.fetch.buffer inp,
         Call.hdnode_from_seed p.mix.2 cfg.MASTER_SEED_SIZE cfg.SECP256K1_NAME,
         Call.hdnode_fingerprint p.from_seed.2,
         Call.hdnode_private_ckd_prime p.from_seed.2 cfg.COIN_TYPE,
         Call.hdnode_fill_public_key p.ckd.2,
         Call.hdnode_serialize_public p.fill p.fingerprint cfg.PUBKEY_PREFIX cfg.XPUB_SIZE,
         Call.protect_wallet p.mix.2 out.encrypted_master_seed] }
  else
    { r := p.pubkey.1,
      out := { encrypted_master_seed := p.wallet.2, encrypted_pub_key := p.pubkey.2 },
      master_seed := p.mix.2,
      calls := p.fetch.calls ++
        [Call.mix_entropy p.fetch.buffer inp,
         Call.hdnode_from_seed p.mix.2 cfg.MASTER_SEED_SIZE cfg.SECP256K1_NAME,
         Call.hdnode_fingerprint p.from_seed.2,
         Call.hdnode_private_ckd_prime p.from_seed.2 cfg.COIN_TYPE,
         Call.hdnode_fill_public_key p.ckd.2,
         Call.hdnode_serialize_public p.fill p.fingerprint cfg.PUBKEY_PREFIX cfg.XPUB_SIZE,
         Call.protect_wallet p.mix.2 out.encrypted_master_seed,
         Call.protect_pubkey p.serialize.2 out.encrypted_pub_key] }

/-- The four stages whose `Result` is handed back by `handle_init_wallet`. -/
inductive Stage where
  | fetch
  | mix
  | seal_seed
  | seal_key
  deriving DecidableEq

/-- Position of a stage in the sequence fetch, mix, derivation, seed sealing,
key sealing. -/
def Stage.rank : Stage → Nat
  | Stage.fetch => 0
  | Stage.mix => 1
  | Stage.seal_seed => 3
  | Stage.seal_key => 4

/-- Position in the same sequence of the stage a collaborator call belongs to. -/
def Call.rank : Call HDNode InternalCommandRequest EncryptedMasterSeed EncryptedPubKey → Nat
  | Call.NFastApp_Transact _ => 0
  | Call.NFast_StrError _ => 0
  | Call.NFastApp_Free_Reply _ => 0
  | Call.mix_entropy _ _ => 1
  | Call.hdnode_from_seed _ _ _ => 2
  | Call.hdnode_fingerprint _ => 2
  | Call.hdnode_private_ckd_prime _ _ => 2
  | Call.hdnode_fill_public_key _ => 2
  | Call.hdnode_serialize_public _ _ _ _ => 2
  | Call.protect_wallet _ _ => 3
  | Call.protect_pubkey _ _ => 4

/-- The `Result` a stage answers. -/
def Pipeline.result (p : Pipeline HDNode InternalCommandRequest EncryptedMasterSeed EncryptedPubKey) :
    Stage → Result
  | Stage.fetch => p.fetch.r
  | Stage.mix => p.mix.1
  | Stage.seal_seed => p.wallet.1
  | Stage.seal_key => p.pubkey.1

/-- All stages before the given one succeeded: the earlier `Result`s are
`Result_SUCCESS` and, before the sealing stages, `hdnode_serialize_public`
returned a positive length. -/
def Pipeline.earlier_ok (p : Pipeline HDNode InternalCommandRequest EncryptedMasterSeed EncryptedPubKey) :
    Stage → Bool
  | Stage.fetch => true
  | Stage.mix => decide (p.fetch.r = Result_SUCCESS)
  | Stage.seal_seed =>
      decide (p.fetch.r = Result_SUCCESS) && decide (p.mix.1 = Result_SUCCESS) &&
        decide (0 < p.serialize.1)
  | Stage.seal_key =>
      decide (p.fetch.r = Result_SUCCESS) && decide (p.mix.1 = Result_SUCCESS) &&
        decide (0 < p.serialize.1) && decide (p.wallet.1 = Result_SUCCESS)

/-- The call is `NFastApp_Transact`. -/
def Call.isTransact : Call HDNode InternalCommandRequest EncryptedMasterSeed EncryptedPubKey → Bool
  | Call.NFastApp_Transact _ => true
  | _ => false

/-- The call is `NFastApp_Free_Reply`. -/
def Call.isFreeReply : Call HDNode InternalCommandRequest EncryptedMasterSeed EncryptedPubKey → Bool
  | Call.NFastApp_Free_Reply _ => true
  | _ => false

/-! ## Stub collaborators used to run the functions on concrete inputs -/

/-- Settings of the stub collaborators: what each call answers. -/
structure Stub where
  transact_status : M_Status
  reply : M_Reply
  mix_result : Result
  from_seed_ret : Int
  ckd_ret : Int
  serialize_ret : Int
  wallet_result : Result
  pubkey_result : Result

/-- Stub collaborators.  Nodes are numbers, the request is the host entropy,
mixing is a bytewise xor, and sealing adds one to each byte. -/
def stubEnv (s : Stub) : Env Nat (List Byte) (List Byte) (List Byte) where
  NFastApp_Transact _ _ := (s.transact_status, s.reply)
  mix_entropy _ seed inp := (s.mix_result, List.zipWith Nat.xor seed inp)
  hdnode_from_seed _ _ seed _ _ := (s.from_seed_ret, seed.sum)
  hdnode_fingerprint _ node := node % 251
  hdnode_private_ckd_prime _ node i := (s.ckd_ret, 2 * node + i + 7)
  hdnode_fill_public_key _ node := node + 1000
  hdnode_serialize_public _ node fingerprint version _ _ :=
    (s.serialize_ret, [version, fingerprint, node])
  protect_wallet _ seed dst :=
    if s.wallet_result = Result_SUCCESS then (s.wallet_result, seed.map (· + 1))
    else (s.wallet_result, dst)
  protect_pubkey _ pub_key dst :=
    if s.pubkey_result = Result_SUCCESS then (s.pubkey_result, pub_key.map (· + 1))
    else (s.pubkey_result, dst)
  uninit_node := 0
  uninit_pub_key := []

/-- A four-byte configuration for small runs. -/
def smallConfig : Config :=
  { MASTER_SEED_SIZE := 4, SECP256K1_NAME := "secp256k1", COIN_TYPE := 1, XPUB_SIZE := 112,
    PUBKEY_PREFIX := 70617039 }

/-- All stages succeed; the module returns the four bytes 1, 2, 3, 4. -/
def okStub : Stub :=
  { transact_status := Status_OK, reply := { status := Status_OK, data := [1, 2, 3, 4] },
    mix_result := Result_SUCCESS, from_seed_ret := 1, ckd_ret := 1, serialize_ret := 111,
    wallet_result := Result_SUCCESS, pubkey_result := Result_SUCCESS }

/-- An empty response structure. -/
def emptyOut : InternalCommandResponse_InitWalletResponse (List Byte) (List Byte) :=
  { encrypted_master_seed := [], encrypted_pub_key := [] }

/-- The production sizes: a 64-byte master seed. -/
def prodConfig : Config :=
  { MASTER_SEED_SIZE := 64, SECP256K1_NAME := "secp256k1", COIN_TYPE := 0, XPUB_SIZE := 112,
    PUBKEY_PREFIX := 76067358 }

/-- The module answers 63 bytes. -/
def shortReplyStub : Stub :=
  { okStub with reply := { status := Status_OK, data := List.replicate 63 7 } }

/-- The call `hdnode_from_seed` returns 0; every checked call succeeds. -/
def fromSeedFailsStub : Stub :=
  { okStub with from_seed_ret := 0 }

/-- The call `protect_pubkey` fails; every earlier call succeeds. -/
def pubkeyFailsStub : Stub :=
  { okStub with pubkey_result := Result_OTHER 1 }

/-- The call `protect_wallet` fails; every earlier call succeeds. -/
def walletFailsStub : Stub :=
  { okStub with wallet_result := Result_OTHER 2 }

/-! ## Properties of `gen_random` -/

/-- C1: for every requested length above the capacity of the scratch buffer (256),
`gen_random` returns `Result_GEN_RANDOM_BUFFER_TOO_LARGE_FAILURE`, makes no call at
all (so no `NFastApp_Transact`) and leaves the buffer as it was. -/
theorem gen_random_too_large
    (env : Env HDNode InternalCommandRequest EncryptedMasterSeed EncryptedPubKey)
    (hist : List (Call HDNode InternalCommandRequest EncryptedMasterSeed EncryptedPubKey))
    (buffer : List Byte) (buffer_len : Nat) (h : sizeof_gen_random_buffer < buffer_len) :
    (gen_random env hist buffer buffer_len).r = Result_GEN_RANDOM_BUFFER_TOO_LARGE_FAILURE ∧
    (gen_random env hist buffer buffer_len).calls = [] ∧
    (gen_random env hist buffer buffer_len).calls.countP Call.isTransact = 0 ∧
    (gen_random env hist buffer buffer_len).buffer = buffer := by
  have hgt : buffer_len > sizeof_gen_random_buffer := h
  simp [gen_random, hgt]

/-- Witness of C1: a request of 257 bytes. -/
theorem gen_random_too_large_witness :
    sizeof_gen_random_buffer < 257 ∧
    (gen_random (stubEnv okStub) [] [0, 0, 0, 0] 257).r
      = Result_GEN_RANDOM_BUFFER_TOO_LARGE_FAILURE ∧
    (gen_random (stubEnv okStub) [] [0, 0, 0, 0] 257).calls = [] ∧
    (gen_random (stubEnv okStub) [] [0, 0, 0, 0] 257).calls.countP Call.isTransact = 0 ∧
    (gen_random (stubEnv okStub) [] [0, 0, 0, 0] 257).buffer = [0, 0, 0, 0] :=
  ⟨by decide, gen_random_too_large (stubEnv okStub) [] [0, 0, 0, 0] 257 (by decide)⟩

/-- C2: for a requested length of at most 256, `gen_random` returns `Result_SUCCESS`
exactly when the transaction returned `Status_OK`, the reply status is `Status_OK`
and the reply data length equals the requested length; and then the first
`buffer_len` bytes of the buffer are exactly the reply data, the rest of the
buffer being untouched. -/
theorem gen_random_success_iff
    (env : Env HDNode InternalCommandRequest EncryptedMasterSeed EncryptedPubKey)
    (hist : List (Call HDNode InternalCommandRequest EncryptedMasterSeed EncryptedPubKey))
    (buffer : List Byte) (buffer_len : Nat) (h : buffer_len ≤ sizeof_gen_random_buffer) :
    ((gen_random env hist buffer buffer_len).r = Result_SUCCESS ↔
      (env.NFastApp_Transact hist (gen_random_command buffer_len)).1 = Status_OK ∧
      (env.NFastApp_Transact hist (gen_random_command buffer_len)).2.status = Status_OK ∧
      (env.NFastApp_Transact hist (gen_random_command buffer_len)).2.data.length = buffer_len) ∧
    ((gen_random env hist buffer buffer_len).r = Result_SUCCESS →
      (gen_random env hist buffer buffer_len).buffer.take buffer_len
        = (env.NFastApp_Transact hist (gen_random_command buffer_len)).2.data ∧
      (gen_random env hist buffer buffer_len).buffer.drop buffer_len
        = buffer.drop buffer_len) := by
  have hle : ¬ buffer_len > sizeof_gen_random_buffer := Nat.not_lt.mpr h
  unfold gen_random
  simp only [hle, if_false]
  by_cases h1 : (env.NFastApp_Transact hist (gen_random_command buffer_len)).1 = Status_OK
  · by_cases h2 : (env.NFastApp_Transact hist (gen_random_command buffer_len)).2.status = Status_OK
    · by_cases h3 :
        (env.NFastApp_Transact hist (gen_random_command buffer_len)).2.data.length = buffer_len
      · simp [h1, h2, h3, memcpy]
      · simp [h1, h2, h3]
    · simp [h1, h2]
  · simp [h1]

/-- Witness of C2: four bytes requested, four bytes answered. -/
theorem gen_random_success_iff_witness :
    4 ≤ sizeof_gen_random_buffer ∧
    (gen_random (stubEnv okStub) [] [0, 0, 0, 0] 4).r = Result_SUCCESS ∧
    (gen_random (stubEnv okStub) [] [0, 0, 0, 0] 4).buffer.take 4 = [1, 2, 3, 4] :=
  ⟨by decide,
   (gen_random_success_iff (stubEnv okStub) [] [0, 0, 0, 0] 4 (by decide)).1.mpr
     ⟨rfl, rfl, rfl⟩,
   ((gen_random_success_iff (stubEnv okStub) [] [0, 0, 0, 0] 4 (by decide)).2 (by decide)).1⟩

/-! ## Properties of `handle_init_wallet` -/

/-- The function `handle_init_wallet` exits as `Pipeline.exit` says on the answers
of its own stages. -/
theorem handle_init_wallet_eq_exit
    (env : Env HDNode InternalCommandRequest EncryptedMasterSeed EncryptedPubKey)
    (cfg : Config)
    (hist : List (Call HDNode InternalCommandRequest EncryptedMasterSeed EncryptedPubKey))
    (inp : InternalCommandRequest)
    (out : InternalCommandResponse_InitWalletResponse EncryptedMasterSeed EncryptedPubKey) :
    handle_init_wallet env cfg hist inp out = (pipeline env cfg hist inp out).exit cfg inp out := by
  unfold handle_init_wallet Pipeline.exit
  simp only [pipeline]
  split
  · rfl
  · split
    · simp
    · split
      · simp
      · split
        · simp
        · split
          · simp
          · simp_all

/-- Every call made by `gen_random` belongs to the fetch stage. -/
theorem gen_random_calls_rank
    (env : Env HDNode InternalCommandRequest EncryptedMasterSeed EncryptedPubKey)
    (hist : List (Call HDNode InternalCommandRequest EncryptedMasterSeed EncryptedPubKey))
    (buffer : List Byte) (buffer_len : Nat) :
    ∀ c ∈ (gen_random env hist buffer buffer_len).calls, c.rank = 0 := by
  intro c hc
  unfold gen_random at hc
  by_cases h0 : buffer_len > sizeof_gen_random_buffer
  · simp [h0] at hc
  · by_cases h1 : (env.NFastApp_Transact hist (gen_random_command buffer_len)).1 = Status_OK
    · by_cases h2 :
        (env.NFastApp_Transact hist (gen_random_command buffer_len)).2.status = Status_OK
      · by_cases h3 :
          (env.NFastApp_Transact hist (gen_random_command buffer_len)).2.data.length
            = buffer_len
        · simp [h0, h1, h2, h3] at hc
          rcases hc with hc | hc <;> (subst hc; rfl)
        · simp [h0, h1, h2, h3] at hc
          rcases hc with hc | hc <;> (subst hc; rfl)
      · simp [h0, h1, h2] at hc
        rcases hc with hc | hc | hc <;> (subst hc; rfl)
    · simp [h0, h1] at hc
      subst hc; rfl

/-- The fetch stage of the pipeline is the call of `gen_random` on the zeroed seed. -/
theorem pipeline_fetch
    (env : Env HDNode InternalCommandRequest EncryptedMasterSeed EncryptedPubKey)
    (cfg : Config)
    (hist : List (Call HDNode InternalCommandRequest EncryptedMasterSeed EncryptedPubKey))
    (inp : InternalCommandRequest)
    (out : InternalCommandResponse_InitWalletResponse EncryptedMasterSeed EncryptedPubKey) :
    (pipeline env cfg hist inp out).fetch =
      gen_random env hist (List.replicate cfg.MASTER_SEED_SIZE 0)
        (cfg.MASTER_SEED_SIZE % 4294967296) := rfl

/-- C3: when the entropy fetch, the mixing, the serialization and both sealing calls
succeed, `handle_init_wallet` returns `Result_SUCCESS`, the response holds the two
envelopes written by `protect_wallet` and `protect_pubkey`, and the calls made after
the fetch are, in order: `mix_entropy`, `hdnode_from_seed` on the mixed seed,
`hdnode_fingerprint`, one `hdnode_private_ckd_prime` at `COIN_TYPE`,
`hdnode_fill_public_key`, `hdnode_serialize_public`, `protect_wallet` on the same
mixed seed, and `protect_pubkey` on the serialized key. -/
theorem handle_init_wallet_success
    (env : Env HDNode InternalCommandRequest EncryptedMasterSeed EncryptedPubKey)
    (cfg : Config)
    (hist : List (Call HDNode InternalCommandRequest EncryptedMasterSeed EncryptedPubKey))
    (inp : InternalCommandRequest)
    (out : InternalCommandResponse_InitWalletResponse EncryptedMasterSeed EncryptedPubKey)
    (hfetch : (pipeline env cfg hist inp out).fetch.r = Result_SUCCESS)
    (hmix : (pipeline env cfg hist inp out).mix.1 = Result_SUCCESS)
    (hser : 0 < (pipeline env cfg hist inp out).serialize.1)
    (hwallet : (pipeline env cfg hist inp out).wallet.1 = Result_SUCCESS)
    (hpubkey : (pipeline env cfg hist inp out).pubkey.1 = Result_SUCCESS) :
    (handle_init_wallet env cfg hist inp out).r = Result_SUCCESS ∧
    (handle_init_wallet env cfg hist inp out).out =
      { encrypted_master_seed := (pipeline env cfg hist inp out).wallet.2,
        encrypted_pub_key := (pipeline env cfg hist inp out).pubkey.2 } ∧
    (handle_init_wallet env cfg hist inp out).calls =
      (pipeline env cfg hist inp out).fetch.calls ++
        [Call.mix_entropy (pipeline env cfg hist inp out).fetch.buffer inp,
         Call.hdnode_from_seed (pipeline env cfg hist inp out).mix.2 cfg.MASTER_SEED_SIZE
           cfg.SECP256K1_NAME,
         Call.hdnode_fingerprint (pipeline env cfg hist inp out).from_seed.2,
         Call.hdnode_private_ckd_prime (pipeline env cfg hist inp out).from_seed.2 cfg.COIN_TYPE,
         Call.hdnode_fill_public_key (pipeline env cfg hist inp out).ckd.2,
         Call.hdnode_serialize_public (pipeline env cfg hist inp out).fill
           (pipeline env cfg hist inp out).fingerprint cfg.PUBKEY_PREFIX cfg.XPUB_SIZE,
         Call.protect_wallet (pipeline env cfg hist inp out).mix.2 out.encrypted_master_seed,
         Call.protect_pubkey (pipeline env cfg hist inp out).serialize.2
           out.encrypted_pub_key] := by
  rw [handle_init_wallet_eq_exit]
  generalize pipeline env cfg hist inp out = p at *
  have hser2 : ¬ p.serialize.1 ≤ 0 := by omega
  simp [Pipeline.exit, hfetch, hmix, hser2, hwallet, hpubkey]

/-- Witness of C3: the stub run in which every stage succeeds. -/
theorem handle_init_wallet_success_witness :
    (pipeline (stubEnv okStub) smallConfig [] [9, 9, 9, 9] emptyOut).fetch.r = Result_SUCCESS ∧
    (pipeline (stubEnv okStub) smallConfig [] [9, 9, 9, 9] emptyOut).mix.1 = Result_SUCCESS ∧
    0 < (pipeline (stubEnv okStub) smallConfig [] [9, 9, 9, 9] emptyOut).serialize.1 ∧
    (pipeline (stubEnv okStub) smallConfig [] [9, 9, 9, 9] emptyOut).wallet.1 = Result_SUCCESS ∧
    (pipeline (stubEnv okStub) smallConfig [] [9, 9, 9, 9] emptyOut).pubkey.1 = Result_SUCCESS ∧
    (handle_init_wallet (stubEnv okStub) smallConfig [] [9, 9, 9, 9] emptyOut).r
      = Result_SUCCESS ∧
    (handle_init_wallet (stubEnv okStub) smallConfig [] [9, 9, 9, 9] emptyOut).out =
      { encrypted_master_seed := [9, 12, 11, 14],
        encrypted_pub_key := [70617040, 43, 1093] } :=
  ⟨by decide, by decide, by decide, by decide, by decide,
   (handle_init_wallet_success (stubEnv okStub) smallConfig [] [9, 9, 9, 9] emptyOut
      (by decide) (by decide) (by decide) (by decide) (by decide)).1,
   (handle_init_wallet_success (stubEnv okStub) smallConfig [] [9, 9, 9, 9] emptyOut
      (by decide) (by decide) (by decide) (by decide) (by decide)).2.1⟩

/-- C4: when one of the stages fetch, mix, seed sealing, key sealing answers a
result `r` other than `Result_SUCCESS` while all stages before it succeeded,
`handle_init_wallet` returns exactly `r` and makes no call of a later stage. -/
theorem handle_init_wallet_short_circuit
    (env : Env HDNode InternalCommandRequest EncryptedMasterSeed EncryptedPubKey)
    (cfg : Config)
    (hist : List (Call HDNode InternalCommandRequest EncryptedMasterSeed EncryptedPubKey))
    (inp : InternalCommandRequest)
    (out : InternalCommandResponse_InitWalletResponse EncryptedMasterSeed EncryptedPubKey)
    (s : Stage) (r : Result)
    (hearlier : (pipeline env cfg hist inp out).earlier_ok s = true)
    (hres : (pipeline env cfg hist inp out).result s = r)
    (hr : r ≠ Result_SUCCESS) :
    (handle_init_wallet env cfg hist inp out).r = r ∧
    ∀ c ∈ (handle_init_wallet env cfg hist inp out).calls, c.rank ≤ s.rank := by
  have hrank : ∀ c ∈ (pipeline env cfg hist inp out).fetch.calls, c.rank = 0 := by
    rw [pipeline_fetch]; exact gen_random_calls_rank env hist _ _
  rw [handle_init_wallet_eq_exit]
  generalize pipeline env cfg hist inp out = p at *
  subst hres
  cases s with
  | fetch =>
    simp only [Pipeline.result] at hr
    simp only [Pipeline.result, Pipeline.exit, hr, ne_eq, not_false_eq_true, if_true, true_and]
    intro c hc
    simp [hrank c hc]
  | mix =>
    simp only [Pipeline.result] at hr
    simp only [Pipeline.earlier_ok, decide_eq_true_eq] at hearlier
    simp only [Pipeline.result, Pipeline.exit, hearlier, hr, ne_eq, not_true_eq_false,
      not_false_eq_true, if_true, if_false, true_and]
    intro c hc
    simp only [List.mem_append, List.mem_singleton] at hc
    rcases hc with hc | hc
    · simp [hrank c hc]
    · subst hc; simp [Call.rank, Stage.rank]
  | seal_seed =>
    simp only [Pipeline.result] at hr
    simp only [Pipeline.earlier_ok, Bool.and_eq_true, decide_eq_true_eq] at hearlier
    obtain ⟨⟨h1, h2⟩, h3⟩ := hearlier
    have h3n : ¬ p.serialize.1 ≤ 0 := by omega
    simp only [Pipeline.result, Pipeline.exit, h1, h2, h3n, hr, ne_eq, not_true_eq_false,
      not_false_eq_true, if_true, if_false, true_and]
    intro c hc
    simp only [List.mem_append, List.mem_cons, List.mem_singleton, List.not_mem_nil,
      or_false] at hc
    rcases hc with hc | hc | hc | hc | hc | hc | hc | hc
    · simp [hrank c hc]
    all_goals (subst hc; simp [Call.rank, Stage.rank])
  | seal_key =>
    simp only [Pipeline.result] at hr
    simp only [Pipeline.earlier_ok, Bool.and_eq_true, decide_eq_true_eq] at hearlier
    obtain ⟨⟨⟨h1, h2⟩, h3⟩, h4⟩ := hearlier
    have h3n : ¬ p.serialize.1 ≤ 0 := by omega
    simp only [Pipeline.result, Pipeline.exit, h1, h2, h3n, h4, ne_eq, not_true_eq_false,
      if_false, true_and]
    intro c hc
    simp only [List.mem_append, List.mem_cons, List.mem_singleton, List.not_mem_nil,
      or_false] at hc
    rcases hc with hc | hc | hc | hc | hc | hc | hc | hc | hc
    · simp [hrank c hc]
    all_goals (subst hc; simp [Call.rank, Stage.rank])

/-- Witness of C4: the stub run in which `protect_wallet` fails with result 2. -/
theorem handle_init_wallet_short_circuit_witness :
    (pipeline (stubEnv walletFailsStub) smallConfig [] [9, 9, 9, 9] emptyOut).earlier_ok
      Stage.seal_seed = true ∧
    (pipeline (stubEnv walletFailsStub) smallConfig [] [9, 9, 9, 9] emptyOut).result
      Stage.seal_seed = Result_OTHER 2 ∧
    Result_OTHER 2 ≠ Result_SUCCESS ∧
    (handle_init_wallet (stubEnv walletFailsStub) smallConfig [] [9, 9, 9, 9] emptyOut).r
      = Result_OTHER 2 ∧
    ∀ c ∈ (handle_init_wallet (stubEnv walletFailsStub) smallConfig [] [9, 9, 9, 9]
        emptyOut).calls, c.rank ≤ Stage.seal_seed.rank :=
  ⟨by decide, by decide, by decide,
   handle_init_wallet_short_circuit (stubEnv walletFailsStub) smallConfig [] [9, 9, 9, 9]
     emptyOut Stage.seal_seed (Result_OTHER 2) (by decide) (by decide) (by decide)⟩

/-- The part of the derivation that is checked: when fetch and mix succeed and
`hdnode_serialize_public` returns a length that is not positive,
`handle_init_wallet` returns `Result_UNKNOWN_INTERNAL_FAILURE`, leaves the
response untouched and makes no sealing call. -/
theorem handle_init_wallet_serialize_failure
    (env : Env HDNode InternalCommandRequest EncryptedMasterSeed EncryptedPubKey)
    (cfg : Config)
    (hist : List (Call HDNode InternalCommandRequest EncryptedMasterSeed EncryptedPubKey))
    (inp : InternalCommandRequest)
    (out : InternalCommandResponse_InitWalletResponse EncryptedMasterSeed EncryptedPubKey)
    (hfetch : (pipeline env cfg hist inp out).fetch.r = Result_SUCCESS)
    (hmix : (pipeline env cfg hist inp out).mix.1 = Result_SUCCESS)
    (hser : (pipeline env cfg hist inp out).serialize.1 ≤ 0) :
    (handle_init_wallet env cfg hist inp out).r = Result_UNKNOWN_INTERNAL_FAILURE ∧
    (handle_init_wallet env cfg hist inp out).out = out ∧
    ∀ c ∈ (handle_init_wallet env cfg hist inp out).calls, c.rank ≤ 2 := by
  have hrank : ∀ c ∈ (pipeline env cfg hist inp out).fetch.calls, c.rank = 0 := by
    rw [pipeline_fetch]; exact gen_random_calls_rank env hist _ _
  rw [handle_init_wallet_eq_exit]
  generalize pipeline env cfg hist inp out = p at *
  simp only [Pipeline.exit, hfetch, hmix, hser, ne_eq, not_true_eq_false, if_true, if_false,
    true_and]
  intro c hc
  simp only [List.mem_append, List.mem_cons, List.mem_singleton, List.not_mem_nil,
    or_false] at hc
  rcases hc with hc | hc | hc | hc | hc | hc | hc
  · simp [hrank c hc]
  all_goals (subst hc; simp [Call.rank])

/-- C5, the code at the failing input: `hdnode_from_seed` returns 0, and
`handle_init_wallet` nevertheless returns `Result_SUCCESS`, calls `protect_wallet`
and `protect_pubkey`, and fills both envelopes of the response. -/
theorem handle_init_wallet_ignores_from_seed_failure :
    (pipeline (stubEnv fromSeedFailsStub) smallConfig [] [9, 9, 9, 9] emptyOut).from_seed.1 = 0 ∧
    (handle_init_wallet (stubEnv fromSeedFailsStub) smallConfig [] [9, 9, 9, 9] emptyOut).r
      = Result_SUCCESS ∧
    Call.protect_wallet [8, 11, 10, 13] [] ∈
      (handle_init_wallet (stubEnv fromSeedFailsStub) smallConfig [] [9, 9, 9, 9]
        emptyOut).calls ∧
    Call.protect_pubkey [70617039, 42, 1092] [] ∈
      (handle_init_wallet (stubEnv fromSeedFailsStub) smallConfig [] [9, 9, 9, 9]
        emptyOut).calls ∧
    (handle_init_wallet (stubEnv fromSeedFailsStub) smallConfig [] [9, 9, 9, 9] emptyOut).out =
      { encrypted_master_seed := [9, 12, 11, 14],
        encrypted_pub_key := [70617040, 43, 1093] } := by
  decide

/-- C6, counterexample: every stage up to seed sealing succeeds and
`protect_pubkey` fails; `handle_init_wallet` returns a failure, yet the
`encrypted_master_seed` field of the response is not what it was before the call:
it holds the envelope written by `protect_wallet`. -/
theorem handle_init_wallet_keeps_seed_envelope :
    (pipeline (stubEnv pubkeyFailsStub) smallConfig [] [9, 9, 9, 9] emptyOut).earlier_ok
      Stage.seal_key = true ∧
    (pipeline (stubEnv pubkeyFailsStub) smallConfig [] [9, 9, 9, 9] emptyOut).pubkey.1
      ≠ Result_SUCCESS ∧
    (handle_init_wallet (stubEnv pubkeyFailsStub) smallConfig [] [9, 9, 9, 9] emptyOut).r
      ≠ Result_SUCCESS ∧
    (handle_init_wallet (stubEnv pubkeyFailsStub) smallConfig [] [9, 9, 9, 9]
      emptyOut).out.encrypted_master_seed = [9, 12, 11, 14] ∧
    (handle_init_wallet (stubEnv pubkeyFailsStub) smallConfig [] [9, 9, 9, 9]
      emptyOut).out.encrypted_master_seed ≠ emptyOut.encrypted_master_seed := by
  decide

/-- C6, amended: when every stage up to seed sealing succeeds and `protect_pubkey`
fails, `handle_init_wallet` returns the result of `protect_pubkey`, and the
response is left as the two sealing calls wrote it: `encrypted_master_seed` holds
what `protect_wallet` wrote and `encrypted_pub_key` what the failed
`protect_pubkey` left. -/
theorem handle_init_wallet_pubkey_failure
    (env : Env HDNode InternalCommandRequest EncryptedMasterSeed EncryptedPubKey)
    (cfg : Config)
    (hist : List (Call HDNode InternalCommandRequest EncryptedMasterSeed EncryptedPubKey))
    (inp : InternalCommandRequest)
    (out : InternalCommandResponse_InitWalletResponse EncryptedMasterSeed EncryptedPubKey)
    (hearlier : (pipeline env cfg hist inp out).earlier_ok Stage.seal_key = true)
    (hpubkey : (pipeline env cfg hist inp out).pubkey.1 ≠ Result_SUCCESS) :
    (handle_init_wallet env cfg hist inp out).r = (pipeline env cfg hist inp out).pubkey.1 ∧
    (handle_init_wallet env cfg hist inp out).r ≠ Result_SUCCESS ∧
    (handle_init_wallet env cfg hist inp out).out.encrypted_master_seed
      = (pipeline env cfg hist inp out).wallet.2 ∧
    (handle_init_wallet env cfg hist inp out).out.encrypted_pub_key
      = (pipeline env cfg hist inp out).pubkey.2 := by
  rw [handle_init_wallet_eq_exit]
  generalize pipeline env cfg hist inp out = p at *
  simp only [Pipeline.earlier_ok, Bool.and_eq_true, decide_eq_true_eq] at hearlier
  obtain ⟨⟨⟨h1, h2⟩, h3⟩, h4⟩ := hearlier
  have h3n : ¬ p.serialize.1 ≤ 0 := by omega
  simp [Pipeline.exit, h1, h2, h3n, h4, hpubkey]

/-- Witness of the amended C6: the stub run in which `protect_pubkey` fails. -/
theorem handle_init_wallet_pubkey_failure_witness :
    (pipeline (stubEnv pubkeyFailsStub) smallConfig [] [9, 9, 9, 9] emptyOut).earlier_ok
      Stage.seal_key = true ∧
    (pipeline (stubEnv pubkeyFailsStub) smallConfig [] [9, 9, 9, 9] emptyOut).pubkey.1
      ≠ Result_SUCCESS ∧
    (handle_init_wallet (stubEnv pubkeyFailsStub) smallConfig [] [9, 9, 9, 9] emptyOut).r
      = (pipeline (stubEnv pubkeyFailsStub) smallConfig [] [9, 9, 9, 9] emptyOut).pubkey.1 ∧
    (handle_init_wallet (stubEnv pubkeyFailsStub) smallConfig [] [9, 9, 9, 9] emptyOut).r
      ≠ Result_SUCCESS ∧
    (handle_init_wallet (stubEnv pubkeyFailsStub) smallConfig [] [9, 9, 9, 9]
      emptyOut).out.encrypted_master_seed
      = (pipeline (stubEnv pubkeyFailsStub) smallConfig [] [9, 9, 9, 9] emptyOut).wallet.2 ∧
    (handle_init_wallet (stubEnv pubkeyFailsStub) smallConfig [] [9, 9, 9, 9]
      emptyOut).out.encrypted_pub_key
      = (pipeline (stubEnv pubkeyFailsStub) smallConfig [] [9, 9, 9, 9] emptyOut).pubkey.2 :=
  ⟨by decide, by decide,
   handle_init_wallet_pubkey_failure (stubEnv pubkeyFailsStub) smallConfig [] [9, 9, 9, 9]
     emptyOut (by decide) (by decide)⟩

/-- C7: when fetch and mix succeed, the one call of `hdnode_serialize_public` gets
as fingerprint the value of `hdnode_fingerprint` on the root node, the node written
by `hdnode_from_seed` from the mixed seed, asked when no derivation call had been
made; the node it serializes is the node after `hdnode_private_ckd_prime` at
`COIN_TYPE` and `hdnode_fill_public_key`; and the calls are made in the order
from-seed, fingerprint, derivation, fill, serialize. -/
theorem handle_init_wallet_root_fingerprint
    (env : Env HDNode InternalCommandRequest EncryptedMasterSeed EncryptedPubKey)
    (cfg : Config)
    (hist : List (Call HDNode InternalCommandRequest EncryptedMasterSeed EncryptedPubKey))
    (inp : InternalCommandRequest)
    (out : InternalCommandResponse_InitWalletResponse EncryptedMasterSeed EncryptedPubKey)
    (p : Pipeline HDNode InternalCommandRequest EncryptedMasterSeed EncryptedPubKey)
    (hp : pipeline env cfg hist inp out = p)
    (hfetch : p.fetch.r = Result_SUCCESS)
    (hmix : p.mix.1 = Result_SUCCESS) :
    p.from_seed =
      env.hdnode_from_seed (hist ++ (p.fetch.calls ++ [Call.mix_entropy p.fetch.buffer inp]))
        env.uninit_node p.mix.2 cfg.MASTER_SEED_SIZE cfg.SECP256K1_NAME ∧
    p.fingerprint =
      env.hdnode_fingerprint
        (hist ++ (p.fetch.calls ++ [Call.mix_entropy p.fetch.buffer inp] ++
          [Call.hdnode_from_seed p.mix.2 cfg.MASTER_SEED_SIZE cfg.SECP256K1_NAME]))
        p.from_seed.2 ∧
    p.ckd =
      env.hdnode_private_ckd_prime
        (hist ++ (p.fetch.calls ++ [Call.mix_entropy p.fetch.buffer inp] ++
          [Call.hdnode_from_seed p.mix.2 cfg.MASTER_SEED_SIZE cfg.SECP256K1_NAME] ++
          [Call.hdnode_fingerprint p.from_seed.2]))
        p.from_seed.2 cfg.COIN_TYPE ∧
    p.fill =
      env.hdnode_fill_public_key
        (hist ++ (p.fetch.calls ++ [Call.mix_entropy p.fetch.buffer inp] ++
          [Call.hdnode_from_seed p.mix.2 cfg.MASTER_SEED_SIZE cfg.SECP256K1_NAME] ++
          [Call.hdnode_fingerprint p.from_seed.2] ++
          [Call.hdnode_private_ckd_prime p.from_seed.2 cfg.COIN_TYPE]))
        p.ckd.2 ∧
    (∃ rest, (handle_init_wallet env cfg hist inp out).calls =
      p.fetch.calls ++
        [Call.mix_entropy p.fetch.buffer inp,
         Call.hdnode_from_seed p.mix.2 cfg.MASTER_SEED_SIZE cfg.SECP256K1_NAME,
         Call.hdnode_fingerprint p.from_seed.2,
         Call.hdnode_private_ckd_prime p.from_seed.2 cfg.COIN_TYPE,
         Call.hdnode_fill_public_key p.ckd.2,
         Call.hdnode_serialize_public p.fill p.fingerprint cfg.PUBKEY_PREFIX cfg.XPUB_SIZE]
        ++ rest) ∧
    (∀ node fingerprint version strsize,
      Call.hdnode_serialize_public node fingerprint version strsize ∈
        (handle_init_wallet env cfg hist inp out).calls →
      node = p.fill ∧ fingerprint = p.fingerprint) := by
  subst hp
  refine ⟨rfl, rfl, rfl, rfl, ?_⟩
  have hrank : ∀ c ∈ (pipeline env cfg hist inp out).fetch.calls, c.rank = 0 := by
    rw [pipeline_fetch]; exact gen_random_calls_rank env hist _ _
  rw [handle_init_wallet_eq_exit]
  generalize pipeline env cfg hist inp out = p at *
  have hno : ∀ node fingerprint version strsize,
      Call.hdnode_serialize_public node fingerprint version strsize ∉ p.fetch.calls := by
    intro node fingerprint version strsize hmem
    have h0 := hrank _ hmem
    simp [Call.rank] at h0
  by_cases hser : p.serialize.1 ≤ 0
  · simp [Pipeline.exit, hfetch, hmix, hser, hno]
    intro node fingerprint version strsize h1 h2 _ _
    exact ⟨h1, h2⟩
  · by_cases hw : p.wallet.1 = Result_SUCCESS
    · simp [Pipeline.exit, hfetch, hmix, hser, hw, hno]
      intro node fingerprint version strsize h1 h2 _ _
      exact ⟨h1, h2⟩
    · simp [Pipeline.exit, hfetch, hmix, hser, hw, hno]
      intro node fingerprint version strsize h1 h2 _ _
      exact ⟨h1, h2⟩

/-- Witness of C7: in the stub run the root node is 42 with fingerprint 42, the
derived child is 92 with fingerprint 92, and `hdnode_serialize_public` gets the
fingerprint 42 with the filled child 1092. -/
theorem handle_init_wallet_root_fingerprint_witness :
    (pipeline (stubEnv okStub) smallConfig [] [9, 9, 9, 9] emptyOut).fetch.r = Result_SUCCESS ∧
    (pipeline (stubEnv okStub) smallConfig [] [9, 9, 9, 9] emptyOut).mix.1 = Result_SUCCESS ∧
    Call.hdnode_serialize_public 1092 42 70617039 112 ∈
      (handle_init_wallet (stubEnv okStub) smallConfig [] [9, 9, 9, 9] emptyOut).calls ∧
    ((1092 : Nat) = (pipeline (stubEnv okStub) smallConfig [] [9, 9, 9, 9] emptyOut).fill ∧
     (42 : Nat) = (pipeline (stubEnv okStub) smallConfig [] [9, 9, 9, 9] emptyOut).fingerprint) ∧
    (stubEnv okStub).hdnode_fingerprint []
      (pipeline (stubEnv okStub) smallConfig [] [9, 9, 9, 9] emptyOut).ckd.2 = 92 :=
  ⟨by decide, by decide, by decide,
   (handle_init_wallet_root_fingerprint (stubEnv okStub) smallConfig [] [9, 9, 9, 9] emptyOut
     (pipeline (stubEnv okStub) smallConfig [] [9, 9, 9, 9] emptyOut) rfl
     (by decide) (by decide)).2.2.2.2.2 1092 42 70617039 112 (by decide),
   by decide⟩

/-- C8: for a requested length of at most 256, `gen_random` returns
`Result_NFAST_APP_TRANSACT_FAILURE` when the transaction does not return `Status_OK`,
otherwise `Result_NFAST_APP_TRANSACT_STATUS_FAILURE` when the reply status is not
`Status_OK`, otherwise `Result_GEN_RANDOM_UNEXPECTED_LEN_FAILURE` when the reply
data length differs from the requested length; and in this last case, when the
length is the one `handle_init_wallet` asks for, `handle_init_wallet` returns
`Result_GEN_RANDOM_UNEXPECTED_LEN_FAILURE`, leaves the response untouched and
makes no call after the fetch. -/
theorem gen_random_failure_classes
    (env : Env HDNode InternalCommandRequest EncryptedMasterSeed EncryptedPubKey)
    (cfg : Config)
    (hist : List (Call HDNode InternalCommandRequest EncryptedMasterSeed EncryptedPubKey))
    (inp : InternalCommandRequest)
    (out : InternalCommandResponse_InitWalletResponse EncryptedMasterSeed EncryptedPubKey)
    (buffer : List Byte) (buffer_len : Nat) (h : buffer_len ≤ sizeof_gen_random_buffer) :
    ((env.NFastApp_Transact hist (gen_random_command buffer_len)).1 ≠ Status_OK →
      (gen_random env hist buffer buffer_len).r = Result_NFAST_APP_TRANSACT_FAILURE) ∧
    ((env.NFastApp_Transact hist (gen_random_command buffer_len)).1 = Status_OK →
      (env.NFastApp_Transact hist (gen_random_command buffer_len)).2.status ≠ Status_OK →
      (gen_random env hist buffer buffer_len).r = Result_NFAST_APP_TRANSACT_STATUS_FAILURE) ∧
    ((env.NFastApp_Transact hist (gen_random_command buffer_len)).1 = Status_OK →
      (env.NFastApp_Transact hist (gen_random_command buffer_len)).2.status = Status_OK →
      (env.NFastApp_Transact hist (gen_random_command buffer_len)).2.data.length ≠ buffer_len →
      (gen_random env hist buffer buffer_len).r = Result_GEN_RANDOM_UNEXPECTED_LEN_FAILURE ∧
      (cfg.MASTER_SEED_SIZE % 4294967296 = buffer_len →
        (handle_init_wallet env cfg hist inp out).r = Result_GEN_RANDOM_UNEXPECTED_LEN_FAILURE ∧
        (handle_init_wallet env cfg hist inp out).out = out ∧
        (handle_init_wallet env cfg hist inp out).calls =
          [Call.NFastApp_Transact (gen_random_command buffer_len),
           Call.NFastApp_Free_Reply
             (env.NFastApp_Transact hist (gen_random_command buffer_len)).2])) := by
  have hle : ¬ buffer_len > sizeof_gen_random_buffer := Nat.not_lt.mpr h
  refine ⟨?_, ?_, ?_⟩
  · intro h1
    simp [gen_random, hle, h1]
  · intro h1 h2
    simp [gen_random, hle, h1, h2]
  · intro h1 h2 h3
    have hgen : ∀ b : List Byte, gen_random env hist b buffer_len =
        { r := Result_GEN_RANDOM_UNEXPECTED_LEN_FAILURE, buffer := b,
          calls := [Call.NFastApp_Transact (gen_random_command buffer_len),
                    Call.NFastApp_Free_Reply
                      (env.NFastApp_Transact hist (gen_random_command buffer_len)).2] } := by
      intro b
      simp [gen_random, hle, h1, h2, h3]
    refine ⟨by rw [hgen], ?_⟩
    intro hsize
    have hfetch := pipeline_fetch env cfg hist inp out
    rw [hsize, hgen] at hfetch
    rw [handle_init_wallet_eq_exit]
    generalize pipeline env cfg hist inp out = p at *
    simp [Pipeline.exit, hfetch]

/-- Witness of C8: 64 bytes are requested and the module answers 63. -/
theorem gen_random_failure_classes_witness :
    64 ≤ sizeof_gen_random_buffer ∧
    ((stubEnv shortReplyStub).NFastApp_Transact [] (gen_random_command 64)).2.data.length = 63 ∧
    (gen_random (stubEnv shortReplyStub) [] (List.replicate 64 0) 64).r
      = Result_GEN_RANDOM_UNEXPECTED_LEN_FAILURE ∧
    (handle_init_wallet (stubEnv shortReplyStub) prodConfig [] (List.replicate 64 9) emptyOut).r
      = Result_GEN_RANDOM_UNEXPECTED_LEN_FAILURE ∧
    (handle_init_wallet (stubEnv shortReplyStub) prodConfig [] (List.replicate 64 9)
      emptyOut).out = emptyOut :=
  ⟨by decide, by decide,
   ((gen_random_failure_classes (stubEnv shortReplyStub) prodConfig [] (List.replicate 64 9)
      emptyOut (List.replicate 64 0) 64 (by decide)).2.2 rfl rfl (by decide)).1,
   (((gen_random_failure_classes (stubEnv shortReplyStub) prodConfig [] (List.replicate 64 9)
      emptyOut (List.replicate 64 0) 64 (by decide)).2.2 rfl rfl (by decide)).2 rfl).1,
   (((gen_random_failure_classes (stubEnv shortReplyStub) prodConfig [] (List.replicate 64 9)
      emptyOut (List.replicate 64 0) 64 (by decide)).2.2 rfl rfl (by decide)).2 rfl).2.1⟩

/-- C9, counterexample: in the stub run `handle_init_wallet` returns
`Result_SUCCESS` and the local `master_seed` holds at the return the mixed seed
8, 11, 10, 13: its bytes are not all zero. -/
theorem handle_init_wallet_seed_not_cleared :
    (handle_init_wallet (stubEnv okStub) smallConfig [] [9, 9, 9, 9] emptyOut).r
      = Result_SUCCESS ∧
    (handle_init_wallet (stubEnv okStub) smallConfig [] [9, 9, 9, 9] emptyOut).master_seed
      = [8, 11, 10, 13] ∧
    ¬ (∀ b ∈ (handle_init_wallet (stubEnv okStub) smallConfig [] [9, 9, 9, 9]
        emptyOut).master_seed, b = 0) := by
  decide

/-- C9, amended: `handle_init_wallet` never clears `master_seed`.  At the return
the buffer holds what `gen_random` left in it when the fetch failed, and the
mixed seed written by `mix_entropy` otherwise; when the result is
`Result_SUCCESS` it is the very seed that was passed to `protect_wallet`.  The
seed reaches the response only through sealing: each field of the response is
either as it was at entry or as `protect_wallet`, respectively `protect_pubkey`,
wrote it. -/
theorem handle_init_wallet_seed_at_exit
    (env : Env HDNode InternalCommandRequest EncryptedMasterSeed EncryptedPubKey)
    (cfg : Config)
    (hist : List (Call HDNode InternalCommandRequest EncryptedMasterSeed EncryptedPubKey))
    (inp : InternalCommandRequest)
    (out : InternalCommandResponse_InitWalletResponse EncryptedMasterSeed EncryptedPubKey) :
    (handle_init_wallet env cfg hist inp out).master_seed =
      (if (pipeline env cfg hist inp out).fetch.r = Result_SUCCESS
        then (pipeline env cfg hist inp out).mix.2
        else (pipeline env cfg hist inp out).fetch.buffer) ∧
    ((handle_init_wallet env cfg hist inp out).r = Result_SUCCESS →
      (handle_init_wallet env cfg hist inp out).master_seed
        = (pipeline env cfg hist inp out).mix.2 ∧
      Call.protect_wallet (handle_init_wallet env cfg hist inp out).master_seed
        out.encrypted_master_seed ∈ (handle_init_wallet env cfg hist inp out).calls) ∧
    ((handle_init_wallet env cfg hist inp out).out.encrypted_master_seed
        = out.encrypted_master_seed ∨
      (handle_init_wallet env cfg hist inp out).out.encrypted_master_seed
        = (pipeline env cfg hist inp out).wallet.2) ∧
    ((handle_init_wallet env cfg hist inp out).out.encrypted_pub_key
        = out.encrypted_pub_key ∨
      (handle_init_wallet env cfg hist inp out).out.encrypted_pub_key
        = (pipeline env cfg hist inp out).pubkey.2) := by
  rw [handle_init_wallet_eq_exit]
  generalize pipeline env cfg hist inp out = p at *
  by_cases h1 : p.fetch.r = Result_SUCCESS
  · by_cases h2 : p.mix.1 = Result_SUCCESS
    · by_cases h3 : p.serialize.1 ≤ 0
      · simp [Pipeline.exit, h1, h2, h3]
      · by_cases h4 : p.wallet.1 = Result_SUCCESS
        · simp [Pipeline.exit, h1, h2, h3, h4]
        · simp [Pipeline.exit, h1, h2, h3, h4]
    · simp [Pipeline.exit, h1, h2]
  · simp [Pipeline.exit, h1]

/-- Witness of the amended C9: the successful stub run ends with the sealed seed
still in `master_seed`. -/
theorem handle_init_wallet_seed_at_exit_witness :
    (handle_init_wallet (stubEnv okStub) smallConfig [] [9, 9, 9, 9] emptyOut).r
      = Result_SUCCESS ∧
    (handle_init_wallet (stubEnv okStub) smallConfig [] [9, 9, 9, 9] emptyOut).master_seed
      = (pipeline (stubEnv okStub) smallConfig [] [9, 9, 9, 9] emptyOut).mix.2 ∧
    Call.protect_wallet
      (handle_init_wallet (stubEnv okStub) smallConfig [] [9, 9, 9, 9] emptyOut).master_seed
      emptyOut.encrypted_master_seed ∈
      (handle_init_wallet (stubEnv okStub) smallConfig [] [9, 9, 9, 9] emptyOut).calls :=
  ⟨by decide,
   (handle_init_wallet_seed_at_exit (stubEnv okStub) smallConfig [] [9, 9, 9, 9]
     emptyOut).2.1 (by decide)⟩

/-- C10: for a requested length of at most 256, `gen_random` calls
`NFastApp_Transact` exactly once; and when that call returned `Status_OK`,
`NFastApp_Free_Reply` is called exactly once, on the reply, as the last call
before the return, whichever of the three results (status failure, length
mismatch, success) is returned. -/
theorem gen_random_one_transaction
    (env : Env HDNode InternalCommandRequest EncryptedMasterSeed EncryptedPubKey)
    (hist : List (Call HDNode InternalCommandRequest EncryptedMasterSeed EncryptedPubKey))
    (buffer : List Byte) (buffer_len : Nat) (h : buffer_len ≤ sizeof_gen_random_buffer) :
    (gen_random env hist buffer buffer_len).calls.countP Call.isTransact = 1 ∧
    ((env.NFastApp_Transact hist (gen_random_command buffer_len)).1 = Status_OK →
      (gen_random env hist buffer buffer_len).calls.countP Call.isFreeReply = 1 ∧
      (gen_random env hist buffer buffer_len).calls.getLast? =
        some (Call.NFastApp_Free_Reply
          (env.NFastApp_Transact hist (gen_random_command buffer_len)).2) ∧
      ((gen_random env hist buffer buffer_len).r = Result_NFAST_APP_TRANSACT_STATUS_FAILURE ∨
       (gen_random env hist buffer buffer_len).r = Result_GEN_RANDOM_UNEXPECTED_LEN_FAILURE ∨
       (gen_random env hist buffer buffer_len).r = Result_SUCCESS)) := by
  have hle : ¬ buffer_len > sizeof_gen_random_buffer := Nat.not_lt.mpr h
  by_cases h1 : (env.NFastApp_Transact hist (gen_random_command buffer_len)).1 = Status_OK
  · by_cases h2 :
      (env.NFastApp_Transact hist (gen_random_command buffer_len)).2.status = Status_OK
    · by_cases h3 :
        (env.NFastApp_Transact hist (gen_random_command buffer_len)).2.data.length = buffer_len
      · simp [gen_random, hle, h1, h2, h3, Call.isTransact, Call.isFreeReply, List.countP_cons]
      · simp [gen_random, hle, h1, h2, h3, Call.isTransact, Call.isFreeReply, List.countP_cons]
    · simp [gen_random, hle, h1, h2, Call.isTransact, Call.isFreeReply, List.countP_cons]
  · simp [gen_random, hle, h1, Call.isTransact, List.countP_cons]

/-- Witness of C10: four bytes requested from the stub module. -/
theorem gen_random_one_transaction_witness :
    4 ≤ sizeof_gen_random_buffer ∧
    (gen_random (stubEnv okStub) [] [0, 0, 0, 0] 4).calls.countP Call.isTransact = 1 ∧
    (gen_random (stubEnv okStub) [] [0, 0, 0, 0] 4).calls.countP Call.isFreeReply = 1 :=
  ⟨by decide,
   (gen_random_one_transaction (stubEnv okStub) [] [0, 0, 0, 0] 4 (by decide)).1,
   ((gen_random_one_transaction (stubEnv okStub) [] [0, 0, 0, 0] 4 (by decide)).2 rfl).1⟩

end Subzero
